import Mathlib

/-!
Verification of the streaming ingestion engine in `pyingest.py`.

The file shallowly embeds the parts of the program that the specification's
claims talk about:

* the value model of the rows crossing the ijson / pandas / driver boundary
  (`PyVal`, `Record`, `CsvRec`);
* the ijson event rewriter `ijson_decimal_as_float`;
* parameter resolution `get_params` with Python's `x or default` semantics
  (`pyOrNat`, `pyOrStr`);
* the transport/decompression dispatch `file_handle`;
* the reader dispatch of `load_file` (declared type, then
  `pathlib.Path(url).suffixes` sniffing) as `dispatch` / `suffixes`;
* the batching loops of `load_json` (explicit accumulation loop `json_loop`)
  and `load_csv` (pandas `read_csv` with `chunksize`, `skiprows`,
  `error_bad_lines=False`, `names=header`, `dtype=str`, `fillna("")`),
  modelled by `load_json_batches` / `load_csv_batches` over `chunkAcc`;
* an event-trace model of `load_file` (`load_file_events`) recording the
  observable calls: progress reports, stream opens, and batch executions.

String splitting is done by `pySplit` (split on a separator character,
matching Python `str.split(sep)` for the single-character separators the
program uses) so that all definitions reduce in the kernel.
-/

namespace PyIngest

/-! ### Python value model

Scalar values as they cross the ijson / pandas / Neo4j-driver boundary.
`decimal lit` is an `ijson` `Decimal` carrying the literal digits of the
numeric token (Python's `str` on such a value prints those digits back);
`float` is a double-precision value (modelled abstractly by its rational
value; the embedded code never constructs one). -/
inductive PyVal where
  | str (s : String)
  | decimal (lit : String)
  | int (n : Int)
  | bool (b : Bool)
  | pyNone
  | float (q : ℚ)
deriving DecidableEq

/-- A row handed to the driver: ordered field-name/value mapping. -/
abbrev Record := List (String × PyVal)

/-- A CSV row as parsed by `load_csv`: ordered field-name/text mapping
(`dtype=str`, so every cell is text). -/
abbrev CsvRec := List (String × String)

/-- Python `str()` on the scalar values that occur in ijson events
(`Decimal` prints its stored literal digits; the remaining cases are the
usual Python reprs and are not reached by number events). -/
def pyStrOfVal : PyVal → String
  | PyVal.str s => s
  | PyVal.decimal lit => lit
  | PyVal.int n => toString n
  | PyVal.bool b => if b then "True" else "False"
  | PyVal.pyNone => "None"
  | PyVal.float _ => ""

/-- Whether a value is a floating-point value. -/
def isFloatVal : PyVal → Bool
  | PyVal.float _ => true
  | _ => false

/-- `LocalServer.ijson_decimal_as_float`: for each ijson event
`(prefix, event, value)`, when `event == 'number'` the code replaces the
value by `str(value)` (the Python source reads `value = str(value)`), and
yields every event. -/
def ijson_decimal_as_float (events : List (String × String × PyVal)) :
    List (String × String × PyVal) :=
  events.map (fun e =>
    if e.2.1 = "number" then (e.1, e.2.1, PyVal.str (pyStrOfVal e.2.2)) else e)

/-! ### String helpers (kernel-reducible models of the Python operations) -/

/-- Helper for `pySplit`: walk the characters, cutting at the separator. -/
def pySplitAux (sep : Char) : List Char → List Char → List String
  | [], cur => [String.mk cur.reverse]
  | c :: cs, cur =>
      if c = sep then String.mk cur.reverse :: pySplitAux sep cs []
      else pySplitAux sep cs (c :: cur)

/-- Python `s.split(sep)` for a one-character separator `sep`
(`"".split(sep) == [""]`, empty pieces are kept). -/
def pySplit (sep : Char) (s : String) : List String :=
  pySplitAux sep s.toList []

/-- Split a line into fields on the file's `field_separator`.  The
specification restricts `field_separator` to a single character, so the
split uses the first character of the separator string. -/
def splitFields (sep : String) (line : String) : List String :=
  pySplit (sep.toList.headD ',') line

/-- Python `str.strip()`: remove leading and trailing whitespace. -/
def pyStrip (s : String) : String :=
  String.mk (((s.toList.dropWhile Char.isWhitespace).reverse.dropWhile
    Char.isWhitespace).reverse)

/-! ### FileSpec and parameter resolution -/

/-- One entry of the configuration's `files` list.  `cql` is the code's
name for the parameterized query (`query` in the specification); `url` and
`cql` are required, everything else optional. -/
structure FileSpec where
  url : String
  cql : String
  type : Option String := Option.none
  compression : Option String := Option.none
  skip_records : Option Nat := Option.none
  chunk_size : Option Nat := Option.none
  field_separator : Option String := Option.none
  skip_file : Option Bool := Option.none
deriving DecidableEq

/-- Python `file.get(key) or default` for an integer-valued optional field:
a missing key and a falsy (zero) value both fall back to the default. -/
def pyOrNat (v : Option Nat) (d : Nat) : Nat :=
  match v with
  | Option.none => d
  | Option.some n => if n = 0 then d else n

/-- Python `file.get(key) or default` for a string-valued optional field:
a missing key and a falsy (empty) value both fall back to the default. -/
def pyOrStr (v : Option String) (d : String) : String :=
  match v with
  | Option.none => d
  | Option.some s => if s = "" then d else s

/-- The module-level `supported_compression_formats` list. -/
def supported_compression_formats : List String := ["gzip", "zip", "none"]

/-- The resolved parameter set built by `LocalServer.get_params`. -/
structure Params where
  skip_records : Nat
  compression : String
  url : String
  cql : String
  chunk_size : Nat
  field_sep : String
deriving DecidableEq

/-- `LocalServer.get_params`: apply the `or`-defaults
(`skip_records or 0`, `compression or 'none'`, `chunk_size or 1000`,
`field_separator or ','`) and copy `url` and `cql` through. -/
def get_params (f : FileSpec) : Params :=
  { skip_records := pyOrNat f.skip_records 0
    compression := pyOrStr f.compression "none"
    url := f.url
    cql := f.cql
    chunk_size := pyOrNat f.chunk_size 1000
    field_sep := pyOrStr f.field_separator "," }

/-- The membership test guarding the `print("Unsupported compression
format: ...")` report inside `get_params`: true exactly when the report is
printed.  `get_params` then continues normally. -/
def unsupported_compression_report (f : FileSpec) : Bool :=
  !(supported_compression_formats.contains (get_params f).compression)

/-! ### Transport and decompression (`file_handle`) -/

/-- Whether the characters of `sc` are a leading segment of `l`. -/
def leadsWith : List Char → List Char → Bool
  | [], _ => true
  | _ :: _, [] => false
  | a :: as, b :: bs => a = b && leadsWith as bs

/-- The raw byte source chosen by the `urlparse` scheme dispatch in
`file_handle`: the body of an S3 object, a local path (for `file://`), or
the URL itself handed to the generic opener. -/
inductive PathSrc where
  | s3Body (bucket : String) (key : String)
  | localPath (p : String)
  | plainUrl (u : String)
deriving DecidableEq

/-- Join path pieces back together with `/`. -/
def joinSlash : List String → String
  | [] => ""
  | [x] => x
  | x :: xs => x ++ "/" ++ joinSlash xs

/-- The scheme dispatch of `file_handle`: `s3` → object body addressed by
bucket and key, `file` → the parsed local path, anything else → the URL
itself. -/
def resolvePath (url : String) : PathSrc :=
  if leadsWith "s3://".toList url.toList then
    let parts := pySplit '/' (String.mk (url.toList.drop 5))
    PathSrc.s3Body (parts.headD "") (joinSlash parts.tail)
  else if leadsWith "file://".toList url.toList then
    PathSrc.localPath (String.mk (url.toList.drop 7))
  else PathSrc.plainUrl url

/-- The uniform stream returned by `file_handle`: gzip text stream, the
first entry of a zip archive, or the raw source passed through unchanged
(the `else` branch, taken for `'none'` and for every unrecognized
compression value). -/
inductive Handle where
  | gzipText (p : PathSrc)
  | zipFirstEntry (p : PathSrc)
  | generic (p : PathSrc)
deriving DecidableEq

/-- `file_handle(url, compression)`: scheme dispatch, then branch on the
compression string; any value other than `'gzip'` and `'zip'` falls into
the pass-through branch. -/
def file_handle (url compression : String) : Handle :=
  let path := resolvePath url
  if compression = "gzip" then Handle.gzipText path
  else if compression = "zip" then Handle.zipFirstEntry path
  else Handle.generic path

/-! ### Reader dispatch (`load_file`) -/

/-- `pathlib.Path(url).suffixes`: take the last path component, return
nothing for a name ending in a dot, strip leading dots, split the rest on
dots and prepend a dot to every piece after the first. -/
def suffixes (url : String) : List String :=
  let name := (pySplit '/' url).getLastD ""
  if name.toList.getLast? = Option.some '.' then []
  else
    match pySplit '.' (String.mk (name.toList.dropWhile (· = '.'))) with
    | [] => []
    | _ :: rest => rest.map (fun s => "." ++ s)

/-- Which reader `load_file` hands the file to, or the reported
unknown-type error. -/
inductive Dispatch where
  | csv
  | json
  | unknownType (t : String)
deriving DecidableEq

/-- The dispatch logic of `load_file`: `type = file.get('type') or 'NA'`;
when `type != 'NA'` use the declared type (`csv` / `json`, otherwise the
unknown-type error report); when it is `'NA'`, sniff the suffix list,
checking `.csv` first, then `.json`, defaulting to the CSV reader. -/
def dispatch (declared : Option String) (sfx : List String) : Dispatch :=
  let t := pyOrStr declared "NA"
  if t = "NA" then
    if sfx.contains ".csv" then Dispatch.csv
    else if sfx.contains ".json" then Dispatch.json
    else Dispatch.csv
  else if t = "csv" then Dispatch.csv
  else if t = "json" then Dispatch.json
  else Dispatch.unknownType t

/-! ### Batching

Both readers emit full batches of `chunk_size` records and flush a final
non-empty partial batch.  `chunkAcc` is the shared accumulation loop:
append the next record to the current batch, emit the batch once it
reaches the chunk size, and flush the leftover batch (if non-empty) at the
end of the stream — exactly the loop written out in `load_json`, and the
grouping behaviour of pandas' `chunksize` iteration in `load_csv`. -/

/-- Accumulate `l` into batches of size `c` on top of the current partial
batch `acc`; flush a non-empty leftover at the end. -/
def chunkAcc (c : Nat) : List α → List α → List (List α)
  | [], acc => if acc.length > 0 then [acc] else []
  | x :: xs, acc =>
      if (acc ++ [x]).length = c then (acc ++ [x]) :: chunkAcc c xs []
      else chunkAcc c xs (acc ++ [x])

/-- Group a list into batches of size `c` (last batch possibly partial). -/
def chunksOf (c : Nat) (l : List α) : List (List α) :=
  chunkAcc c l []

/-- The `while not halt` loop of `load_json`: `recNum` counts every item
read; an item is appended to `rows` only once `recNum` exceeds
`skip_records`; `rows` is executed and reset when it reaches
`chunk_size`; a final non-empty `rows` is executed after the loop. -/
def json_loop (skip c : Nat) : List α → Nat → List α → List (List α)
  | [], _, rows => if rows.length > 0 then [rows] else []
  | item :: rest, recNum, rows =>
      if skip < recNum + 1 then
        if (rows ++ [item]).length = c then
          (rows ++ [item]) :: json_loop skip c rest (recNum + 1) []
        else json_loop skip c rest (recNum + 1) (rows ++ [item])
      else json_loop skip c rest (recNum + 1) rows

/-- The batches `load_json` submits, given the top-level array elements
`items` that `ijson.common.items` yields. -/
def load_json_batches (skip c : Nat) (items : List α) : List (List α) :=
  json_loop skip c items 0 []

/-- The header row: the first line, stripped, split on the separator
(`header.strip().split(field_sep)` in the source). -/
def csvHeader (sep : String) (line : String) : List String :=
  splitFields sep (pyStrip line)

/-- How pandas (`read_csv` with `names=header`, `index_col=False`,
`dtype=str`, `error_bad_lines=False`, then `fillna("")`) turns one data
line into a record: blank lines are skipped (`skip_blank_lines`), a line
with more fields than the header is a bad line and is skipped, and a line
with at most as many fields as the header yields a record keyed by the
header in order, with the missing trailing cells as empty strings. -/
def csvParseLine (header : List String) (sep : String) (line : String) :
    Option CsvRec :=
  if line = "" then Option.none
  else if header.length < (splitFields sep line).length then Option.none
  else Option.some (header.zip (splitFields sep line
    ++ List.replicate (header.length - (splitFields sep line).length) ""))

/-- The records surviving pandas' row-level parsing of the given lines. -/
def csvRecords (header : List String) (sep : String) (lines : List String) :
    List CsvRec :=
  lines.filterMap (csvParseLine header sep)

/-- The batches `load_csv` submits: the first line is consumed as the
header, pandas skips the next `skip` lines (`skiprows`), parses the rest
row by row, and the `chunksize=c` iteration groups the surviving records
into batches of `c`. -/
def load_csv_batches (sep : String) (skip c : Nat) (lines : List String) :
    List (List CsvRec) :=
  match lines with
  | [] => []
  | headerLine :: dataLines =>
      chunksOf c (csvRecords (csvHeader sep headerLine) sep
        (dataLines.drop skip))

/-- The batch-shape contract of §8 of the specification, for a stream of
`N` surviving records batched with chunk size `c`: `⌈N/c⌉` batches, all of
size `c` except possibly the last, whose size is `N mod c` (or `c` when
`N mod c = 0`), and no empty batch is ever emitted. -/
def batchShape (c N : Nat) (B : List (List α)) : Prop :=
  B.length = (N + c - 1) / c
  ∧ (∀ b ∈ B.dropLast, b.length = c)
  ∧ (B ≠ [] → (B.getLastD []).length = if N % c = 0 then c else N % c)
  ∧ (∀ b ∈ B, b ≠ [])

/-! ### Event-trace model of `load_file`

The observable actions of processing one file, in order: the progress
prints, the skip report, the unknown-type error report, the unsupported
compression report, the `file_handle` call (transport), and each
`session.run(cql, dict=rows)` call (batch execution).  The per-chunk
timestamp prints of the readers are not recorded. -/

/-- One observable action of the orchestrator. -/
inductive Event where
  | progress (msg value : String)
  | skippedFile (url : String)
  | unknownType (t : String)
  | unsupportedCompression (c : String)
  | openStream (url compression : String)
  | execBatch (cql : String) (rows : List Record)
deriving DecidableEq

/-- `pandas.DataFrame.to_dict('records')` on a parsed CSV row: every cell
stays a string value. -/
def csvRecordToRow (r : CsvRec) : Record :=
  r.map (fun kv => (kv.1, PyVal.str kv.2))

/-- Does an event open a transport stream? -/
def isTransportEvent : Event → Bool
  | Event.openStream _ _ => true
  | _ => false

/-- Does an event submit a batch to the store? -/
def isExecEvent : Event → Bool
  | Event.execBatch _ _ => true
  | _ => false

/-- Does an event report the unknown-type error? -/
def isUnknownTypeEvent : Event → Bool
  | Event.unknownType _ => true
  | _ => false

/-- The report `get_params` prints for an unsupported compression value. -/
def get_params_events (f : FileSpec) : List Event :=
  if unsupported_compression_report f then
    [Event.unsupportedCompression (get_params f).compression]
  else []

/-- The trace of `load_csv`: resolve parameters, open the stream, then one
execution per batch, with the given stream contents `lines`. -/
def load_csv_events (f : FileSpec) (lines : List String) : List Event :=
  get_params_events f
    ++ [Event.openStream (get_params f).url (get_params f).compression]
    ++ (load_csv_batches (get_params f).field_sep (get_params f).skip_records
          (get_params f).chunk_size lines).map
        (fun b => Event.execBatch (get_params f).cql (b.map csvRecordToRow))

/-- The trace of `load_json`: resolve parameters, open the stream, then one
execution per batch, with the given parsed array elements `items`. -/
def load_json_events (f : FileSpec) (items : List Record) : List Event :=
  get_params_events f
    ++ [Event.openStream (get_params f).url (get_params f).compression]
    ++ (load_json_batches (get_params f).skip_records
          (get_params f).chunk_size items).map
        (fun b => Event.execBatch (get_params f).cql b)

/-- Python's quoting of the url in the progress prints. -/
def quoted (s : String) : String := "'" ++ s ++ "'"

/-- The trace of `LocalServer.load_file`: check `skip_file` first and stop
with only the skip report; otherwise print the start report, dispatch on
declared type / sniffed suffixes (an unknown declared type only prints the
error report), and print the completion report.  `lines` and `items` are
the contents the opened stream would yield to the CSV and JSON readers. -/
def load_file_events (f : FileSpec) (lines : List String)
    (items : List Record) : List Event :=
  if (f.skip_file.getD false) = true then [Event.skippedFile f.url]
  else
    Event.progress "Reading file:" (quoted f.url)
      :: ((match dispatch f.type (suffixes f.url) with
          | Dispatch.csv => load_csv_events f lines
          | Dispatch.json => load_json_events f items
          | Dispatch.unknownType t => [Event.unknownType t])
        ++ [Event.progress "Completed file:" (quoted f.url)])

/-- The per-file loop of `main`: files are processed in declaration order,
each contributing its trace (the `basepath` prefixing is outside the
claims' scope and not applied here). -/
def process_files (files : List (FileSpec × List String × List Record)) :
    List Event :=
  (files.map (fun x => load_file_events x.1 x.2.1 x.2.2)).flatten

/-! ### Concrete fixtures used to instantiate the theorems -/

/-- Three parsed JSON array elements. -/
def wItems : List Record :=
  [[("a", PyVal.int 1)], [("a", PyVal.int 2)], [("a", PyVal.int 3)]]

/-- Three CSV data lines under the header `a,b`. -/
def wLines : List String := ["1,x", "2,y", "3,z"]

/-- A file marked `skip_file: true`. -/
def fileC6 : FileSpec :=
  { url := "big.csv", cql := "q", skip_file := Option.some true }

/-- A file declaring only the required fields. -/
def fileC7 : FileSpec := { url := "data.csv", cql := "q" }

/-- A file declaring the unsupported compression value `lzma`. -/
def fileC8 : FileSpec :=
  { url := "data.csv", cql := "q", compression := Option.some "lzma" }

/-- A file declaring every optional field with a falsy value. -/
def fileC9 : FileSpec :=
  { url := "data.csv", cql := "q", compression := Option.some "",
    skip_records := Option.some 0, chunk_size := Option.some 0,
    field_separator := Option.some "" }

/-- A file declaring the unknown type `xml`. -/
def fileC10a : FileSpec :=
  { url := "data.csv", cql := "q", type := Option.some "xml" }

/-- A file declaring the explicit type `NA` — an explicit type that is
neither `csv` nor `json`. -/
def fileC10NA : FileSpec :=
  { url := "data.csv", cql := "q", type := Option.some "NA" }

/-! ### Lemmas about the batching loop -/

theorem chunkAcc_flatten (c : Nat) (l : List α) :
    ∀ acc : List α, (chunkAcc c l acc).flatten = acc ++ l := by
  induction l with
  | nil =>
    intro acc
    by_cases h : acc.length > 0 <;> simp_all [chunkAcc]
  | cons x xs ih =>
    intro acc
    by_cases h : (acc ++ [x]).length = c
    · simp only [chunkAcc, if_pos h]
      simp [ih]
    · simp only [chunkAcc, if_neg h]
      simp [ih]

theorem chunkAcc_mem_ne_nil (c : Nat) (l : List α) :
    ∀ acc : List α, ∀ b ∈ chunkAcc c l acc, b ≠ [] := by
  induction l with
  | nil =>
    intro acc b hb
    by_cases h : acc.length > 0 <;> simp [chunkAcc, h] at hb
    subst hb
    exact List.length_pos.mp h
  | cons x xs ih =>
    intro acc b hb
    by_cases h : (acc ++ [x]).length = c
    · simp only [chunkAcc, if_pos h, List.mem_cons] at hb
      rcases hb with hb | hb
      · subst hb; simp
      · exact ih [] b hb
    · simp only [chunkAcc, if_neg h] at hb
      exact ih _ b hb

theorem chunkAcc_ne_nil (c : Nat) (l : List α) :
    ∀ acc : List α, acc ≠ [] ∨ l ≠ [] → chunkAcc c l acc ≠ [] := by
  induction l with
  | nil =>
    intro acc h
    have ha : acc ≠ [] := by tauto
    simp [chunkAcc, List.length_pos.mpr ha]
  | cons x xs ih =>
    intro acc _
    by_cases h : (acc ++ [x]).length = c
    · simp [chunkAcc, h]
    · simp only [chunkAcc, if_neg h]
      exact ih _ (Or.inl (by simp))

theorem chunkAcc_length (c : Nat) (hc : 1 ≤ c) (l : List α) :
    ∀ acc : List α, acc.length < c →
      (chunkAcc c l acc).length = (acc.length + l.length + c - 1) / c := by
  induction l with
  | nil =>
    intro acc hacc
    by_cases h : acc.length > 0
    · simp only [chunkAcc, if_pos h, List.length_cons, List.length_nil]
      have e1 : (acc.length + 0 + c - 1) / c = 1 :=
        Nat.div_eq_of_lt_le (by omega) (by omega)
      rw [e1]
    · simp only [chunkAcc, if_neg h, List.length_nil]
      rw [Nat.div_eq_of_lt (by omega)]
  | cons x xs ih =>
    intro acc hacc
    have hax : (acc ++ [x]).length = acc.length + 1 := by simp
    by_cases h : (acc ++ [x]).length = c
    · have hlen : acc.length + 1 = c := by rw [← hax]; exact h
      simp only [chunkAcc, if_pos h, List.length_cons]
      rw [ih [] (by simp only [List.length_nil]; omega)]
      simp only [List.length_nil, Nat.zero_add]
      rw [show acc.length + (xs.length + 1) + c - 1
            = (xs.length + c - 1) + c by omega]
      rw [Nat.add_div_right _ (by omega)]
    · have hlt : acc.length + 1 < c := by omega
      simp only [chunkAcc, if_neg h]
      rw [ih _ (by omega)]
      congr 1
      simp only [List.length_append, List.length_cons, List.length_nil]
      omega

theorem chunkAcc_dropLast (c : Nat) (l : List α) :
    ∀ acc : List α, ∀ b ∈ (chunkAcc c l acc).dropLast, b.length = c := by
  induction l with
  | nil =>
    intro acc b hb
    by_cases h : acc.length > 0 <;> simp [chunkAcc, h] at hb
  | cons x xs ih =>
    intro acc b hb
    by_cases h : (acc ++ [x]).length = c
    · simp only [chunkAcc, if_pos h] at hb
      cases hrest : chunkAcc c xs ([] : List α) with
      | nil => rw [hrest] at hb; simp at hb
      | cons r rs =>
        rw [hrest, List.dropLast_cons₂, List.mem_cons] at hb
        rcases hb with hb | hb
        · subst hb; exact h
        · exact ih [] b (by rw [hrest]; exact hb)
    · simp only [chunkAcc, if_neg h] at hb
      exact ih _ b hb

theorem getLastD_singleton (a d : α) : ([a] : List α).getLastD d = a := rfl

theorem getLastD_cons_ne_nil (a : α) (l : List α) (h : l ≠ []) (d : α) :
    (a :: l).getLastD d = l.getLastD d := by
  cases l with
  | nil => exact absurd rfl h
  | cons b bs => rfl

theorem chunkAcc_getLastD (c : Nat) (hc : 1 ≤ c) (l : List α) :
    ∀ acc : List α, acc.length < c → (acc ≠ [] ∨ l ≠ []) →
      ((chunkAcc c l acc).getLastD []).length =
        if (acc.length + l.length) % c = 0 then c
        else (acc.length + l.length) % c := by
  induction l with
  | nil =>
    intro acc hacc hne
    have ha : acc ≠ [] := by tauto
    have hpos : 0 < acc.length := List.length_pos.mpr ha
    simp only [chunkAcc, if_pos hpos, getLastD_singleton, List.length_nil,
      Nat.add_zero]
    rw [Nat.mod_eq_of_lt hacc, if_neg (by omega)]
  | cons x xs ih =>
    intro acc hacc hne
    have hax : (acc ++ [x]).length = acc.length + 1 := by simp
    by_cases h : (acc ++ [x]).length = c
    · have hlen : acc.length + 1 = c := by rw [← hax]; exact h
      simp only [chunkAcc, if_pos h]
      by_cases hxs : xs = []
      · subst hxs
        have hz : chunkAcc c ([] : List α) ([] : List α) = [] := rfl
        rw [hz, getLastD_singleton, hax, hlen]
        rw [if_pos (by
          have e2 : acc.length + ([x] : List α).length = c := by
            simp only [List.length_cons, List.length_nil]
            omega
          rw [e2, Nat.mod_self])]
      · have hrest : chunkAcc c xs ([] : List α) ≠ [] :=
          chunkAcc_ne_nil c xs [] (Or.inr hxs)
        rw [getLastD_cons_ne_nil _ _ hrest]
        rw [ih [] (by simp only [List.length_nil]; omega) (Or.inr hxs)]
        have e : (acc.length + (x :: xs).length) % c
            = (List.length ([] : List α) + xs.length) % c := by
          simp only [List.length_cons, List.length_nil, Nat.zero_add]
          rw [show acc.length + (xs.length + 1) = xs.length + c by omega,
            Nat.add_mod_right]
        rw [e]
    · have hlt : acc.length + 1 < c := by omega
      simp only [chunkAcc, if_neg h]
      rw [ih _ (by omega) (Or.inl (by simp))]
      have e : (acc ++ [x]).length + xs.length = acc.length + (x :: xs).length := by
        simp only [List.length_append, List.length_cons, List.length_nil]
        omega
      rw [e]

theorem chunksOf_flatten (c : Nat) (l : List α) : (chunksOf c l).flatten = l := by
  simpa [chunksOf] using chunkAcc_flatten c l []

theorem batchShape_chunksOf (c : Nat) (hc : 1 ≤ c) (l : List α) :
    batchShape c l.length (chunksOf c l) := by
  refine ⟨?_, ?_, ?_, ?_⟩
  · simpa [chunksOf] using
      chunkAcc_length c hc l [] (by simp only [List.length_nil]; omega)
  · intro b hb
    exact chunkAcc_dropLast c l [] b hb
  · intro hne
    have hl : l ≠ [] := by
      intro h
      subst h
      simp [chunksOf, chunkAcc] at hne
    simpa [chunksOf] using chunkAcc_getLastD c hc l []
      (by simp only [List.length_nil]; omega) (Or.inr hl)
  · intro b hb
    exact chunkAcc_mem_ne_nil c l [] b hb

/-! ### The JSON loop computes the same batches -/

theorem json_loop_past_skip (skip c : Nat) (l : List α) :
    ∀ (r : Nat) (acc : List α), skip ≤ r →
      json_loop skip c l r acc = chunkAcc c l acc := by
  induction l with
  | nil => intro r acc _; rfl
  | cons x xs ih =>
    intro r acc h
    have hgt : skip < r + 1 := by omega
    simp only [json_loop, chunkAcc, if_pos hgt]
    by_cases he : (acc ++ [x]).length = c
    · rw [if_pos he, if_pos he, ih (r + 1) [] (by omega)]  -- skip le
    · rw [if_neg he, if_neg he, ih (r + 1) _ (by omega)]

theorem json_loop_skip_phase (skip c : Nat) (l : List α) :
    ∀ r : Nat, r ≤ skip →
      json_loop skip c l r [] =
        json_loop skip c (l.drop (skip - r)) skip [] := by
  induction l with
  | nil =>
    intro r h
    rw [List.drop_nil]
    simp only [json_loop]
  | cons x xs ih =>
    intro r h
    rcases Nat.eq_or_lt_of_le h with heq | hlt
    · subst heq; simp
    · have hng : ¬ skip < r + 1 := by omega
      simp only [json_loop, if_neg hng]
      rw [ih (r + 1) (by omega)]
      congr 1
      rw [show skip - r = (skip - (r + 1)) + 1 by omega]
      simp [List.drop_succ_cons]

theorem load_json_batches_eq_chunksOf (skip c : Nat) (items : List α) :
    load_json_batches skip c items = chunksOf c (items.drop skip) := by
  unfold load_json_batches chunksOf
  rw [json_loop_skip_phase skip c items 0 (by omega), Nat.sub_zero]
  exact json_loop_past_skip skip c _ skip [] (Nat.le_refl skip)

/-! ### Claims -/

/-- Claim C1 (code bug).  The claim states that every numeric token parsed
by the JSON reader is exposed in the Record as a floating-point value.
The function's own doc comment agrees ("Tells ijson to return decimal
number as float"), but the code reads `value = str(value)`: the `Decimal`
produced by ijson for the literal `3.14000000000000012` is converted to
the arbitrary-precision decimal string `"3.14000000000000012"`, not to a
float.  This theorem evaluates the embedded event rewriter at the failing
input and shows its output value is a string, not a floating-point
value. -/
theorem C1_number_becomes_decimal_string :
    ijson_decimal_as_float
        [("item.x", "number", PyVal.decimal "3.14000000000000012")]
      = [("item.x", "number", PyVal.str "3.14000000000000012")]
    ∧ isFloatVal (PyVal.str "3.14000000000000012") = false :=
  ⟨rfl, rfl⟩

/-- Claim C2, counterexample.  The claim says suffix sniffing checks
`.json` before `.csv`; for the undeclared-type file `data.json.csv`
(suffix list `[.json, .csv]`) that order would select the JSON reader,
but `load_file` checks `.csv` first and selects the CSV reader. -/
theorem C2_counterexample :
    dispatch Option.none (suffixes "data.json.csv") = Dispatch.csv
    ∧ Dispatch.csv ≠ Dispatch.json := by
  decide

/-- Claim C2 (amended).  For every file without an explicitly declared
type, the reader is selected by filename-extension sniffing in which a
`.csv` suffix is checked before a `.json` suffix, falling back to CSV when
neither is present; an explicitly declared type of `csv` or `json` always
takes precedence over sniffing. -/
theorem C2_extension_sniffing (sfx : List String) :
    dispatch (Option.some "csv") sfx = Dispatch.csv
    ∧ dispatch (Option.some "json") sfx = Dispatch.json
    ∧ dispatch Option.none sfx =
        (if sfx.contains ".csv" then Dispatch.csv
         else if sfx.contains ".json" then Dispatch.json
         else Dispatch.csv) := by
  refine ⟨?_, ?_, ?_⟩ <;> simp [dispatch, pyOrStr]

/-- Claim C3, counterexample.  The claim says a CSV data row with fewer
fields than the header produces no emitted Record.  With header `a,b`,
the one-field data row `1` IS emitted as a Record, padded with an empty
string — pandas only drops rows with too many fields
(`error_bad_lines=False`); short rows are filled and kept, matching §3 of
the specification ("missing cells normalize to empty string"). -/
theorem C3_counterexample :
    (load_csv_batches "," 0 2 ["a,b", "1"]).flatten = [[("a", "1"), ("b", "")]]
    ∧ (load_csv_batches "," 0 2 ["a,b", "1"]).flatten ≠ [] := by
  decide

/-- Claim C3 (amended).  A data row containing MORE fields than the header
produces no emitted Record (the row is skipped as malformed) and does not
terminate the batch stream — the file's batches are exactly those obtained
with the row absent; a row with FEWER fields than the header is emitted as
a Record padded with empty strings; rows with wrong field count never
abort the file. -/
theorem C3_wrong_field_count (sep : String) (c : Nat) (headerLine bad : String)
    (pre post : List String)
    (hbad : (csvHeader sep headerLine).length < (splitFields sep bad).length) :
    load_csv_batches sep 0 c (headerLine :: (pre ++ bad :: post))
      = load_csv_batches sep 0 c (headerLine :: (pre ++ post))
    ∧ (∀ line : String, line ≠ "" →
        (splitFields sep line).length ≤ (csvHeader sep headerLine).length →
        csvParseLine (csvHeader sep headerLine) sep line
          = Option.some ((csvHeader sep headerLine).zip
              (splitFields sep line ++ List.replicate
                ((csvHeader sep headerLine).length
                  - (splitFields sep line).length) ""))) := by
  constructor
  · have hnone : csvParseLine (csvHeader sep headerLine) sep bad
        = Option.none := by
      by_cases hb : bad = ""
      · simp [csvParseLine, hb]
      · simp only [csvParseLine, if_neg hb]
        rw [if_pos hbad]
    simp [load_csv_batches, csvRecords, List.filterMap_append,
      List.filterMap_cons, hnone]
  · intro line h1 h2
    simp only [csvParseLine, if_neg h1]
    rw [if_neg (Nat.not_lt.mpr h2)]

/-- Witness for C3 at header `a,b`, bad row `1,2,3`, following row `3,4`. -/
theorem C3_wrong_field_count_witness :
    (csvHeader "," "a,b").length < (splitFields "," "1,2,3").length
    ∧ (load_csv_batches "," 0 2 ("a,b" :: ([] ++ "1,2,3" :: ["3,4"]))
        = load_csv_batches "," 0 2 ("a,b" :: ([] ++ ["3,4"]))
      ∧ (∀ line : String, line ≠ "" →
          (splitFields "," line).length ≤ (csvHeader "," "a,b").length →
          csvParseLine (csvHeader "," "a,b") "," line
            = Option.some ((csvHeader "," "a,b").zip
                (splitFields "," line ++ List.replicate
                  ((csvHeader "," "a,b").length
                    - (splitFields "," line).length) "")))) :=
  ⟨by decide, C3_wrong_field_count "," 2 "a,b" "1,2,3" [] ["3,4"] (by decide)⟩

/-- Claim C4.  For every chunk size `c ≥ 1`, every skip count and every
input, both readers emit exactly `⌈N/c⌉` batches over the `N` records
surviving skipping (and, for CSV, row-level parsing); every batch has size
`c` except possibly the last, whose size is `N mod c` (or `c` when
`N mod c = 0`), and no empty batch is ever emitted. -/
theorem C4_batch_shape (c k : Nat) (items : List Record)
    (sep headerLine : String) (dataLines : List String) (hc : 1 ≤ c) :
    batchShape c (items.drop k).length (load_json_batches k c items)
    ∧ batchShape c
        (csvRecords (csvHeader sep headerLine) sep (dataLines.drop k)).length
        (load_csv_batches sep k c (headerLine :: dataLines)) := by
  constructor
  · rw [load_json_batches_eq_chunksOf]
    exact batchShape_chunksOf c hc _
  · simp only [load_csv_batches]
    exact batchShape_chunksOf c hc _

/-- Witness for C4 at chunk size 2, skip 1, three records per reader. -/
theorem C4_batch_shape_witness :
    (1 : Nat) ≤ 2
    ∧ (batchShape 2 ((wItems.drop 1).length) (load_json_batches 1 2 wItems)
      ∧ batchShape 2
          (csvRecords (csvHeader "," "a,b") "," (wLines.drop 1)).length
          (load_csv_batches "," 1 2 ("a,b" :: wLines))) :=
  ⟨by decide, C4_batch_shape 2 1 wItems "," "a,b" wLines (by decide)⟩

/-- Claim C5.  `skip_records = k` removes exactly the first `k` data rows
(the `k` post-header lines for CSV, the first `k` array elements for
JSON): the concatenation of all emitted batches is precisely the stream of
records obtained from the input with its first `k` data rows dropped, in
source order. -/
theorem C5_skip_records (k c : Nat) (items : List Record)
    (sep headerLine : String) (dataLines : List String)
    (_hc : 1 ≤ c) (_hkj : k ≤ items.length) (_hkc : k ≤ dataLines.length) :
    (load_json_batches k c items).flatten = items.drop k
    ∧ (load_csv_batches sep k c (headerLine :: dataLines)).flatten
        = csvRecords (csvHeader sep headerLine) sep (dataLines.drop k) := by
  constructor
  · rw [load_json_batches_eq_chunksOf, chunksOf_flatten]
  · simp only [load_csv_batches]
    rw [chunksOf_flatten]

/-- Witness for C5 at `k = 2`, chunk size 2. -/
theorem C5_skip_records_witness :
    ((1 : Nat) ≤ 2 ∧ 2 ≤ wItems.length ∧ 2 ≤ wLines.length)
    ∧ ((load_json_batches 2 2 wItems).flatten = wItems.drop 2
      ∧ (load_csv_batches "," 2 2 ("a,b" :: wLines)).flatten
          = csvRecords (csvHeader "," "a,b") "," (wLines.drop 2)) :=
  ⟨⟨by decide, by decide, by decide⟩,
    C5_skip_records 2 2 wItems "," "a,b" wLines (by decide) (by decide)
      (by decide)⟩

/-- Claim C6.  A file whose FileSpec has `skip_file = true` produces only
the skip report: zero batches, zero transport (stream-opening) calls and
zero batch-executor calls — the skip is terminal and leaves the backing
store untouched. -/
theorem C6_skip_file (f : FileSpec) (lines : List String) (items : List Record)
    (h : f.skip_file = Option.some true) :
    load_file_events f lines items = [Event.skippedFile f.url]
    ∧ (load_file_events f lines items).filter isTransportEvent = []
    ∧ (load_file_events f lines items).filter isExecEvent = [] := by
  have ht : load_file_events f lines items = [Event.skippedFile f.url] := by
    simp [load_file_events, h]
  refine ⟨ht, ?_, ?_⟩ <;> rw [ht] <;> rfl

/-- Witness for C6 at a concrete skipped file. -/
theorem C6_skip_file_witness :
    fileC6.skip_file = Option.some true
    ∧ (load_file_events fileC6 ["a,b", "1,2"] wItems
        = [Event.skippedFile fileC6.url]
      ∧ (load_file_events fileC6 ["a,b", "1,2"] wItems).filter
          isTransportEvent = []
      ∧ (load_file_events fileC6 ["a,b", "1,2"] wItems).filter
          isExecEvent = []) :=
  ⟨rfl, C6_skip_file fileC6 ["a,b", "1,2"] wItems rfl⟩

/-- Claim C7.  Parameter resolution preserves the declared `url` and query
(`cql`), fills each absent optional field with its documented default
(`skip_records = 0`, `chunk_size = 1000`, `compression = 'none'`,
`field_separator = ','`), and the resolved set always satisfies
`chunk_size ≥ 1` and `skip_records ≥ 0`. -/
theorem C7_param_defaults (f : FileSpec) :
    (get_params f).url = f.url
    ∧ (get_params f).cql = f.cql
    ∧ (f.skip_records = Option.none → (get_params f).skip_records = 0)
    ∧ (f.chunk_size = Option.none → (get_params f).chunk_size = 1000)
    ∧ (f.compression = Option.none → (get_params f).compression = "none")
    ∧ (f.field_separator = Option.none → (get_params f).field_sep = ",")
    ∧ 1 ≤ (get_params f).chunk_size
    ∧ 0 ≤ (get_params f).skip_records := by
  refine ⟨rfl, rfl, ?_, ?_, ?_, ?_, ?_, Nat.zero_le _⟩
  · intro h; simp [get_params, pyOrNat, h]
  · intro h; simp [get_params, pyOrNat, h]
  · intro h; simp [get_params, pyOrStr, h]
  · intro h; simp [get_params, pyOrStr, h]
  · cases hcs : f.chunk_size with
    | none => simp [get_params, pyOrNat, hcs]
    | some n =>
      by_cases hn : n = 0
      · simp [get_params, pyOrNat, hcs, hn]
      · simp only [get_params, pyOrNat, hcs, if_neg hn]
        omega

/-- Witness for C7 at a file declaring only the required fields. -/
theorem C7_param_defaults_witness :
    (get_params fileC7).url = fileC7.url
    ∧ (get_params fileC7).cql = fileC7.cql
    ∧ (fileC7.skip_records = Option.none
        → (get_params fileC7).skip_records = 0)
    ∧ (fileC7.chunk_size = Option.none
        → (get_params fileC7).chunk_size = 1000)
    ∧ (fileC7.compression = Option.none
        → (get_params fileC7).compression = "none")
    ∧ (fileC7.field_separator = Option.none
        → (get_params fileC7).field_sep = ",")
    ∧ 1 ≤ (get_params fileC7).chunk_size
    ∧ 0 ≤ (get_params fileC7).skip_records :=
  C7_param_defaults fileC7

/-- Claim C8.  A compression value outside `{gzip, zip, none}` is only
reported, never raised: `get_params` prints the report and resolution
continues, and `file_handle` treats the value exactly like the
unspecified/`'none'` case — the raw stream is passed through the generic
opener unchanged. -/
theorem C8_unsupported_compression (f : FileSpec) (url : String)
    (h : supported_compression_formats.contains (get_params f).compression
      = false) :
    unsupported_compression_report f = true
    ∧ file_handle url (get_params f).compression = file_handle url "none"
    ∧ file_handle url (get_params f).compression
        = Handle.generic (resolvePath url) := by
  have hg : (get_params f).compression ≠ "gzip" := by
    intro he
    rw [he] at h
    simp [supported_compression_formats] at h
  have hz : (get_params f).compression ≠ "zip" := by
    intro he
    rw [he] at h
    simp [supported_compression_formats] at h
  refine ⟨?_, ?_, ?_⟩
  · unfold unsupported_compression_report
    rw [h]
    rfl
  · simp [file_handle, hg, hz]
  · simp [file_handle, hg, hz]

/-- Witness for C8 at the unsupported compression value `lzma`. -/
theorem C8_unsupported_compression_witness :
    supported_compression_formats.contains (get_params fileC8).compression
      = false
    ∧ (unsupported_compression_report fileC8 = true
      ∧ file_handle "data.csv" (get_params fileC8).compression
          = file_handle "data.csv" "none"
      ∧ file_handle "data.csv" (get_params fileC8).compression
          = Handle.generic (resolvePath "data.csv")) :=
  ⟨by decide, C8_unsupported_compression fileC8 "data.csv" (by decide)⟩

/-- Claim C9.  An optional field declared with a falsy value is silently
replaced by its default: `chunk_size = 0` resolves to 1000 (rather than
being rejected or kept), `skip_records = 0` stays 0, an empty
`field_separator` becomes `','`, and an empty `compression` becomes
`'none'`. -/
theorem C9_falsy_defaults (f : FileSpec) :
    (f.chunk_size = Option.some 0 → (get_params f).chunk_size = 1000)
    ∧ (f.skip_records = Option.some 0 → (get_params f).skip_records = 0)
    ∧ (f.field_separator = Option.some "" → (get_params f).field_sep = ",")
    ∧ (f.compression = Option.some "" → (get_params f).compression = "none")
    := by
  refine ⟨?_, ?_, ?_, ?_⟩ <;>
    (intro h; simp [get_params, pyOrNat, pyOrStr, h])

/-- Witness for C9 at a file declaring every optional field falsy. -/
theorem C9_falsy_defaults_witness :
    (fileC9.chunk_size = Option.some 0
      → (get_params fileC9).chunk_size = 1000)
    ∧ (fileC9.skip_records = Option.some 0
      → (get_params fileC9).skip_records = 0)
    ∧ (fileC9.field_separator = Option.some ""
      → (get_params fileC9).field_sep = ",")
    ∧ (fileC9.compression = Option.some ""
      → (get_params fileC9).compression = "none") :=
  C9_falsy_defaults fileC9

/-- Claim C10, counterexample.  The claim says every file declaring an
explicit type other than `csv`/`json` is not dispatched and an error is
reported.  But `load_file` reads `type = file.get('type') or 'NA'` and
compares against the sentinel `'NA'`: a file explicitly declaring
`type: NA` (a type other than `csv` or `json`) falls into the sniffing
branch, IS dispatched to the CSV reader, opens the stream, executes a
batch, and reports no error. -/
theorem C10_counterexample :
    (load_file_events fileC10NA ["a,b", "1,2"] []).filter isTransportEvent
      = [Event.openStream "data.csv" "none"]
    ∧ (load_file_events fileC10NA ["a,b", "1,2"] []).filter isExecEvent
      = [Event.execBatch "q" [[("a", PyVal.str "1"), ("b", PyVal.str "2")]]]
    ∧ (load_file_events fileC10NA ["a,b", "1,2"] []).filter
        isUnknownTypeEvent = [] := by
  decide

/-- Claim C10 (amended).  For every non-skipped file whose FileSpec
declares an explicit type that is neither `csv` nor `json` — and is not
the sentinel `'NA'` or the falsy empty string, both of which the code
treats as "no declared type" — the file is not dispatched to any reader:
no stream is opened, no batch is executed, the unknown-type error is
reported, the call returns normally, and processing continues with the
subsequent files. -/
theorem C10_unknown_declared_type (f : FileSpec) (lines : List String)
    (items : List Record) (t : String)
    (rest : List (FileSpec × List String × List Record))
    (ht : f.type = Option.some t) (h1 : t ≠ "csv") (h2 : t ≠ "json")
    (h3 : t ≠ "NA") (h4 : t ≠ "") (hs : f.skip_file.getD false = false) :
    load_file_events f lines items
      = [Event.progress "Reading file:" (quoted f.url), Event.unknownType t,
         Event.progress "Completed file:" (quoted f.url)]
    ∧ (load_file_events f lines items).filter isTransportEvent = []
    ∧ (load_file_events f lines items).filter isExecEvent = []
    ∧ process_files ((f, lines, items) :: rest)
        = load_file_events f lines items ++ process_files rest := by
  have hd : dispatch f.type (suffixes f.url) = Dispatch.unknownType t := by
    rw [ht]
    simp only [dispatch, pyOrStr]
    rw [if_neg h4, if_neg h3, if_neg h1, if_neg h2]
  have htrace : load_file_events f lines items
      = [Event.progress "Reading file:" (quoted f.url), Event.unknownType t,
         Event.progress "Completed file:" (quoted f.url)] := by
    simp [load_file_events, hs, hd]
  refine ⟨htrace, ?_, ?_, ?_⟩
  · rw [htrace]; rfl
  · rw [htrace]; rfl
  · simp [process_files]

/-- Witness for C10 at the declared type `xml`. -/
theorem C10_unknown_declared_type_witness :
    (fileC10a.type = Option.some "xml"
      ∧ ("xml" : String) ≠ "csv" ∧ ("xml" : String) ≠ "json"
      ∧ ("xml" : String) ≠ "NA" ∧ ("xml" : String) ≠ ""
      ∧ fileC10a.skip_file.getD false = false)
    ∧ (load_file_events fileC10a ["a,b", "1,2"] wItems
        = [Event.progress "Reading file:" (quoted fileC10a.url),
           Event.unknownType "xml",
           Event.progress "Completed file:" (quoted fileC10a.url)]
      ∧ (load_file_events fileC10a ["a,b", "1,2"] wItems).filter
          isTransportEvent = []
      ∧ (load_file_events fileC10a ["a,b", "1,2"] wItems).filter
          isExecEvent = []
      ∧ process_files [(fileC10a, ["a,b", "1,2"], wItems)]
          = load_file_events fileC10a ["a,b", "1,2"] wItems
            ++ process_files []) :=
  ⟨⟨rfl, by decide, by decide, by decide, by decide, rfl⟩,
    C10_unknown_declared_type fileC10a ["a,b", "1,2"] wItems "xml" [] rfl
      (by decide) (by decide) (by decide) (by decide) rfl⟩

end PyIngest
